import Mathlib

/-!
Shallow embedding of `stackstorm_api_client.py` (class `StackStormAPIClient`).

The network is modelled by an oracle (`NetResult`): each operation that
performs an HTTP request takes as input the outcome the server produces for
that request (a decoded JSON body on success, or the text of the HTTP error
raised by `raise_for_status`).  Python exceptions are modelled with
`Except PyError`.  The Python class's mutable instance attributes — plus the
shared mutable default argument of `_set_headers` (a single `dict` object
reused by every call of `_api_get`/`_api_delete` that passes no headers) —
form `ClientState`.
-/

/-- JSON-decodable values handled by the client (`ST2_Response` in the
source: `dict | list | tuple | bool | int | float | str | None`; tuples
never arise from JSON decoding and floats are not modelled). -/
inductive ST2Response where
  | dict (entries : List (String × ST2Response))
  | list (items : List ST2Response)
  | bool (b : Bool)
  | int (n : Int)
  | str (s : String)
  | none

/-- Python truthiness of a stored credential / JSON value
(`if self.__api_key:` etc.). -/
def isTruthy : ST2Response → Bool
  | .dict es => !es.isEmpty
  | .list xs => !xs.isEmpty
  | .bool b => b
  | .int n => n != 0
  | .str s => s != ""
  | .none => false

/-- Exceptions the client can raise: `ValueError`, a transport
`requests.exceptions.HTTPError` (carrying `str(err)`), and the `TypeError`
raised by `json.dumps` on an unserialisable object. -/
inductive PyError where
  | valueError (msg : String)
  | httpError (msg : String)
  | typeError (msg : String)
deriving Repr, DecidableEq

/-- Outcome the server produces for one HTTP request: a decoded JSON body on
2xx, or the message of the `HTTPError` raised by `raise_for_status`. -/
inductive NetResult where
  | ok (body : ST2Response)
  | httpError (msg : String)

/-- `StackStormAPIClient.ERROR_INVALID_PATH`. -/
def ERROR_INVALID_PATH : String := "404 Client Error: Not Found for url:"

/-- Leading-match test: the first list is a leading segment of the second. -/
def charsLeadMatch : List Char → List Char → Bool
  | [], _ => true
  | _ :: _, [] => false
  | p :: ps, c :: cs => p == c && charsLeadMatch ps cs

/-- Occurrence test: `pat` occurs contiguously somewhere in `text`. -/
def charsContain (text pat : List Char) : Bool :=
  match text with
  | [] => charsLeadMatch pat []
  | _ :: rest => charsLeadMatch pat text || charsContain rest pat

/-- `str(err).find(sub) != -1`: substring containment test. -/
def strContains (s sub : String) : Bool := charsContain s.toList sub.toList

/-- A Python `dict` of headers (insertion-ordered key/value pairs with
unique keys). -/
abbrev Headers := List (String × ST2Response)

/-- `d[k] = v` on a Python dict: overwrite in place, or append. -/
def dictSet (d : Headers) (k : String) (v : ST2Response) : Headers :=
  if d.any (fun p => p.1 == k) then
    d.map (fun p => if p.1 == k then (k, v) else p)
  else d ++ [(k, v)]

/-- `k in d` on a Python dict. -/
def dictHasKey (d : List (String × ST2Response)) (k : String) : Bool :=
  d.any (fun p => p.1 == k)

/-- `d[k]` lookup (first matching key). -/
def dictGet (d : List (String × ST2Response)) (k : String) : Option ST2Response :=
  (d.find? (fun p => p.1 == k)).map (·.2)

/-- The mutable state of one `StackStormAPIClient` instance: the private
attributes, plus the shared default-headers dict of `_set_headers`
(initially `{}` and mutated by every call that relies on the default). -/
structure ClientState where
  verify : Bool
  authenticated : Bool
  path_prefix : String
  api_uri : String
  api_key : ST2Response
  auth_token : ST2Response
  default_headers : Headers

/-- `_set_headers`: update the given dict with the three constant headers,
then add `St2-Api-Key` if the stored API key is truthy, else `X-Auth-Token`
if the stored token is truthy.  Returns the (mutated) dict. -/
def set_headers (api_key auth_token : ST2Response) (headers : Headers) : Headers :=
  let h := dictSet (dictSet (dictSet headers
      "Connection" (.str "keep-alive"))
      "Accept-Encoding" (.str "gzip, deflate"))
      "Accept" (.str "application/json")
  if isTruthy api_key then dictSet h "St2-Api-Key" api_key
  else if isTruthy auth_token then dictSet h "X-Auth-Token" auth_token
  else h

/-- `_check_response`: keep values of an allowed JSON type, collapse
anything else (i.e. `None`) to `None`. -/
def check_response (response : ST2Response) : ST2Response :=
  match response with
  | .dict es => .dict es
  | .list xs => .list xs
  | .bool b => .bool b
  | .int n => .int n
  | .str s => .str s
  | .none => .none

/-- `_make_uri`: `{api_uri}{path}` with empty `path` replaced by `"/"`. -/
def make_uri (s : ClientState) (path : String) : String :=
  s.api_uri ++ (if path = "" then "/" else path)

/-- Python's `uri or stored`: the argument when non-empty, else the stored
value. -/
def resolve_uri (uri stored : String) : String :=
  if uri != "" then uri else stored

/-- The client state `__init__` builds before examining the credential
arguments (and returns unchanged when none is given). -/
def unauthState (verify upp : Bool) : ClientState :=
  { verify := verify, authenticated := false,
    path_prefix := if upp then "/api/v1" else "/v1",
    api_uri := "https://localhost", api_key := ST2Response.none,
    auth_token := ST2Response.none, default_headers := [] }

/-- `_api_get` (also the body of `_api_delete` up to the returned value):
raise `ValueError` on empty uri; otherwise assemble headers — mutating the
shared default dict — and perform the request.  Returns the updated state
together with the decoded response or the propagated `HTTPError`. -/
def api_get_state (s : ClientState) (uri : String) (net : NetResult) :
    ClientState × Except PyError ST2Response :=
  if uri = "" then
    (s, .error (.valueError "'uri' argument must be supplied"))
  else
    match net with
    | .httpError m =>
      ({ s with default_headers :=
          set_headers s.api_key s.auth_token s.default_headers },
       .error (.httpError m))
    | .ok body =>
      ({ s with default_headers :=
          set_headers s.api_key s.auth_token s.default_headers },
       .ok (check_response body))

/-- `auth(uri, api_key)`: raise `ValueError` on empty key; store the key,
probe `GET {uri}{path_prefix}`; on `HTTPError` clear the key and return; on
success store the resolved uri and set `authenticated`. -/
def auth (s : ClientState) (uri api_key : String) (probe : NetResult) :
    Except PyError ClientState :=
  if api_key = "" then
    .error (.valueError "'api_key' argument must be supplied")
  else
    match api_get_state { s with api_key := .str api_key }
        (resolve_uri uri s.api_uri ++ s.path_prefix) probe with
    | (s2, .error (.httpError _)) => .ok { s2 with api_key := ST2Response.none }
    | (_, .error e) => .error e
    | (s2, .ok _) =>
      .ok { s2 with api_uri := resolve_uri uri s.api_uri,
                    authenticated := true }

/-- `login(uri, username, password)`: raise `ValueError` on an empty
username or password; POST to `{uri}/auth/v1/tokens` with basic-auth
credentials (fresh headers — the shared default dict is not touched); on
`HTTPError` return silently; if the decoded body is a dict containing
`"token"`, store uri/token and set `authenticated`, else return silently. -/
def login (s : ClientState) (uri username password : String) (net : NetResult) :
    Except PyError ClientState :=
  if username = "" then
    .error (.valueError "'username' argument must be supplied")
  else if password = "" then
    .error (.valueError "'password' argument must be supplied")
  else
    match net with
    | .httpError _ => .ok s
    | .ok body =>
      match check_response body with
      | .dict es =>
        match dictGet es "token" with
        | some tok =>
          .ok { s with api_uri := resolve_uri uri s.api_uri,
                       auth_token := tok, authenticated := true }
        | Option.none => .ok s
      | _ => .ok s

/-- `__init__`: resolution order of the credential arguments, as in the
source.  `net` is the oracle for the single network call the constructor
may make (through `auth` or `login`). -/
def init (uri api_key auth_token username password : String)
    (verify use_path_prefix validate_api_key : Bool) (net : NetResult) :
    Except PyError ClientState :=
  if api_key != "" && !validate_api_key then
    .ok { unauthState verify use_path_prefix with
          api_uri := resolve_uri uri "https://localhost",
          api_key := .str api_key, authenticated := true }
  else if auth_token != "" then
    .ok { unauthState verify use_path_prefix with
          api_uri := resolve_uri uri "https://localhost",
          auth_token := .str auth_token, authenticated := true }
  else if api_key != "" then
    auth { unauthState verify use_path_prefix with
           api_uri := resolve_uri uri "https://localhost" }
      (resolve_uri uri "https://localhost") api_key net
  else if username != "" || password != "" then
    login (unauthState verify use_path_prefix)
      (resolve_uri uri "https://localhost") username password net
  else
    .ok (unauthState verify use_path_prefix)

/-- A Python object passed as a request body: either it serialises with
`json.dumps` to the given text, or `json.dumps` raises a `TypeError`
because it contains an object of the named type. -/
inductive PyObj where
  | jsonable (text : String)
  | unjsonable (typeName : String)

/-- `json.dumps`: produce the JSON text, or raise `TypeError`. -/
def json_dumps : PyObj → Except PyError String
  | .jsonable t => .ok t
  | .unjsonable n =>
    .error (.typeError ("Object of type " ++ n ++ " is not JSON serializable"))

/-- Result of a write-verb call: whether an HTTP request was actually sent,
and the returned value or raised exception. -/
structure ReqResult (α : Type) where
  requested : Bool
  result : Except PyError α

/-- `_api_put`: raise `ValueError` on empty uri; assemble headers into a
fresh dict; serialise the body with a bare `json.dumps` inside the request
call — a serialisation failure propagates unchanged, before the request is
sent; otherwise perform the request and return `True` on 2xx. -/
def api_put (s : ClientState) (uri : String) (body : PyObj) (net : NetResult) :
    ReqResult Bool :=
  if uri = "" then
    ⟨false, .error (.valueError "'uri' argument must be supplied")⟩
  else
    let _hs := set_headers s.api_key s.auth_token
        [("content-type", .str "application/json")]
    match json_dumps body with
    | .error e => ⟨false, .error e⟩
    | .ok _ =>
      match net with
      | .httpError m => ⟨true, .error (.httpError m)⟩
      | .ok _ => ⟨true, .ok true⟩

/-- `_api_post`: raise `ValueError` on empty uri; serialise the body under
`try/except`, re-raising any failure as `ValueError("invalid body data")`
before the request is sent; then perform the request (basic-auth when a
username or password is given, header-credential otherwise). -/
def api_post (s : ClientState) (uri : String) (body : PyObj)
    (username password : String) (net : NetResult) : ReqResult ST2Response :=
  if uri = "" then
    ⟨false, .error (.valueError "'uri' argument must be supplied")⟩
  else
    match json_dumps body with
    | .error _ => ⟨false, .error (.valueError "invalid body data")⟩
    | .ok _ =>
      let _hs : Headers :=
        if username != "" || password != "" then
          [("content-type", .str "application/json")]
        else
          set_headers s.api_key s.auth_token
            [("content-type", .str "application/json")]
      match net with
      | .httpError m => ⟨true, .error (.httpError m)⟩
      | .ok body => ⟨true, .ok (check_response body)⟩

/-- Public `put(path, params, body)`. -/
def put (s : ClientState) (path : String) (body : PyObj) (net : NetResult) :
    ReqResult Bool :=
  api_put s (make_uri s path) body net

/-- Public `post(path, params, body)` (no username/password). -/
def post (s : ClientState) (path : String) (body : PyObj) (net : NetResult) :
    ReqResult ST2Response :=
  api_post s (make_uri s path) body "" "" net

/-- Public `get(path, params)`: resolve the uri and run `_api_get`. -/
def get (s : ClientState) (path : String) (net : NetResult) :
    ClientState × Except PyError ST2Response :=
  api_get_state s (make_uri s path) net

/-- The headers a `get` (or `delete`) request sends in state `s`: the
shared default dict, updated by `_set_headers`. -/
def headers_for_get (s : ClientState) : Headers :=
  set_headers s.api_key s.auth_token s.default_headers

/-- `get_execution_status(id)`: `ValueError` on empty id; GET the execution;
a 404 (recognised by substring match against `ERROR_INVALID_PATH`) is
swallowed, any other `HTTPError` re-raised; a dict response containing
`"status"` yields that value, anything else yields `"missing"`. -/
def get_execution_status (s : ClientState) (id : String) (net : NetResult) :
    Except PyError ST2Response :=
  if id = "" then
    .error (.valueError "'id' argument must be specified")
  else
    match api_get_state s
        (make_uri s (s.path_prefix ++ "/executions/" ++ id)) net with
    | (_, .error (.httpError m)) =>
      if strContains m ERROR_INVALID_PATH then .ok (.str "missing")
      else .error (.httpError m)
    | (_, .error e) => .error e
    | (_, .ok resp) =>
      match resp with
      | .dict es =>
        match dictGet es "status" with
        | some v => .ok v
        | Option.none => .ok (.str "missing")
      | _ => .ok (.str "missing")

/-- `get_execution_result(id)`: `ValueError` on empty id; GET the execution.
NOTE (faithful to the source): when the `HTTPError` text does NOT contain
the 404 marker, the code raises `ValueError("execution cannot be found
(ID=...)")`; when it IS a 404, the error is swallowed and — the response
still being `None` — the function returns `None`.  A dict response
containing `"result"` yields that value; anything else yields `None`. -/
def get_execution_result (s : ClientState) (id : String) (net : NetResult) :
    Except PyError ST2Response :=
  if id = "" then
    .error (.valueError "'id' argument must be specified")
  else
    match api_get_state s
        (make_uri s (s.path_prefix ++ "/executions/" ++ id)) net with
    | (_, .error (.httpError m)) =>
      if strContains m ERROR_INVALID_PATH then .ok ST2Response.none
      else .error (.valueError ("execution cannot be found (ID=" ++ id ++ ")"))
    | (_, .error e) => .error e
    | (_, .ok resp) =>
      match resp with
      | .dict es =>
        match dictGet es "result" with
        | some v => .ok v
        | Option.none => .ok ST2Response.none
      | _ => .ok ST2Response.none

/-- How one loop iteration of `wait_for_execution` classifies a status
value: `some false` for `"missing"`/`"failed"`, `some true` for
`"succeeded"`, `none` (keep polling) for anything else — non-string values
compare unequal to every status string in Python. -/
def status_class : ST2Response → Option Bool
  | .str s =>
    if s = "missing" || s = "failed" then some false
    else if s = "succeeded" then some true
    else Option.none
  | _ => Option.none

/-- Final outcome of the polling loop: a returned boolean, a propagated
exception, or fuel exhaustion (modelling a loop still running — reachable
only with `timeout = 0`, see `wait_go_terminates`). -/
inductive WaitOutcome where
  | done (b : Bool)
  | raised (e : PyError)
  | fuelOut
deriving Repr, DecidableEq

/-- Observable trace of one `wait_for_execution` call: its outcome, the
number of status queries it performed, and the duration of every
`time.sleep` it executed (each also being one elapsed-time accumulation). -/
structure WaitRes where
  outcome : WaitOutcome
  queries : Nat
  sleeps : List Int
deriving Repr, DecidableEq

/-- The `while` loop of `wait_for_execution`, fuel-indexed.  `i` is the
(already clamped) interval, `k` numbers the status queries for the oracle
`nets`, `elapsed` is `_elapsed_time`.  The loop condition
`(timeout == 0) or (elapsed < timeout)` is tested before consuming fuel, so
a normal exit needs no fuel. -/
def wait_go (s : ClientState) (id : String) (nets : Nat → NetResult)
    (timeout i : Int) : Nat → Int → Nat → WaitRes
  | _, elapsed, 0 =>
    if timeout = 0 ∨ elapsed < timeout then ⟨.fuelOut, 0, []⟩
    else ⟨.done false, 0, []⟩
  | k, elapsed, fuel + 1 =>
    if timeout = 0 ∨ elapsed < timeout then
      match get_execution_status s id (nets k) with
      | .error e => ⟨.raised e, 1, []⟩
      | .ok v =>
        match status_class v with
        | some b => ⟨.done b, 1, []⟩
        | Option.none =>
          let r := wait_go s id nets timeout i (k + 1) (elapsed + i) fuel
          ⟨r.outcome, r.queries + 1, i :: r.sleeps⟩
    else ⟨.done false, 0, []⟩

/-- The two sequential clamping statements of `wait_for_execution`:
`if interval < 1: interval = 1` then `if interval > 300: interval = 300`. -/
def clamp_interval (interval : Int) : Int :=
  let i1 := if interval < 1 then 1 else interval
  if i1 > 300 then 300 else i1

/-- `wait_for_execution(id, timeout, interval)`: `ValueError` on empty id,
clamp the interval once, then run the polling loop from `_elapsed_time = 0`.
`nets` gives the server's answer to each successive status query. -/
def wait_for_execution (s : ClientState) (id : String) (nets : Nat → NetResult)
    (timeout interval : Int) (fuel : Nat) : WaitRes :=
  if id = "" then
    ⟨.raised (.valueError "'id' argument must be specified"), 0, []⟩
  else
    wait_go s id nets timeout (clamp_interval interval) 0 0 fuel

/-- An authenticated client holding an API key (as produced by a successful
`auth`, fields written out). -/
def authedState : ClientState :=
  { verify := true, authenticated := true, path_prefix := "/api/v1",
    api_uri := "https://st2.example", api_key := ST2Response.str "K1",
    auth_token := ST2Response.none, default_headers := [] }

/-- Oracle answering every status query with a decoded body
`{"status": "running"}`. -/
def runningNets : Nat → NetResult :=
  fun _ => .ok (.dict [("status", .str "running")])

/-- Oracle whose successive status queries decode to `"running"` then
`"succeeded"` (the C4 scenario). -/
def runThenSucceedNets : Nat → NetResult :=
  fun n => .ok (.dict [("status", .str (if n = 0 then "running" else "succeeded"))])

/-- An `HTTPError` message matching `ERROR_INVALID_PATH` (a 404). -/
def msg404 : String :=
  "404 Client Error: Not Found for url: https://localhost/api/v1/executions/abc"

/-- An `HTTPError` message not matching `ERROR_INVALID_PATH` (a 500). -/
def msg500 : String :=
  "500 Server Error: Internal Server Error for url: https://localhost/api/v1/executions/abc"

/-- Client after construction with `api_key="K1"` and key validation on,
where the probe GET is rejected with an HTTP 403: the probe's header
assembly has written `St2-Api-Key: K1` into the shared default headers
dict, and the failed probe then cleared the stored key. -/
def c2_state0 : Except PyError ClientState :=
  init "https://st2.example" "K1" "" "" "" true true true
    (.httpError "403 Client Error: Unauthorized for url: https://st2.example/api/v1")

/-- The previous client after a subsequent successful `login` that stored
the bearer token `"TOK"`. -/
def c2_state1 : Except PyError ClientState :=
  match c2_state0 with
  | .ok s => login s "" "user" "pw" (.ok (.dict [("token", .str "TOK")]))
  | .error e => .error e

/-- Client after construction with `api_key="K1"` and key validation on,
where the probe GET succeeds: the key is stored and the client is
authenticated. -/
def c3_state0 : Except PyError ClientState :=
  init "https://st2.example" "K1" "" "" "" true true true (.ok (.dict []))

/-- The previous client after a subsequent successful `login`: the bearer
token is stored, but `login` never clears the stored API key. -/
def c3_state1 : Except PyError ClientState :=
  match c3_state0 with
  | .ok s => login s "" "user" "pw" (.ok (.dict [("token", .str "TOK")]))
  | .error e => .error e

/-- The state mutations any public method can perform on a constructed
client: a normal return of `login`, a normal return of `auth`, or the
shared-default-headers mutation done by any call that reaches
`_api_get`/`_api_delete` (the verb methods and the execution helpers),
which touch no other field.  Calls that raise before mutating leave the
state unchanged and are covered by reflexivity. -/
inductive ClientStep : ClientState → ClientState → Prop where
  | login_call (s : ClientState) (uri un pw : String) (net : NetResult)
      (s' : ClientState) (h : login s uri un pw net = .ok s') :
      ClientStep s s'
  | auth_call (s : ClientState) (uri k : String) (probe : NetResult)
      (s' : ClientState) (h : auth s uri k probe = .ok s') :
      ClientStep s s'
  | header_mutation (s : ClientState) :
      ClientStep s { s with default_headers := headers_for_get s }

/-- A request body containing a Python `set`, which `json.dumps` rejects. -/
def badBody : PyObj := .unjsonable "set"

/-- Helper: once `_elapsed_time` has reached 10 against `timeout = 5`, the
loop condition fails at its next evaluation and the loop returns `False`
without a further status query, whatever fuel remains. -/
theorem wait_go_c4_exit (f : Nat) :
    wait_go (unauthState true true) "x" runThenSucceedNets 5 10 1 10 f
      = ⟨.done false, 0, []⟩ := by
  cases f <;> rfl

/-- C4 counterexample: with timeout=5, interval=10 and statuses
`"running"`, `"succeeded"`, `wait_for_execution` does NOT return true: it
returns false after a single query and a single 10-second sleep, because
the timeout comparison at the top of the loop (`10 < 5`) fails before the
second status query is reached. -/
theorem c4_counterexample :
    wait_for_execution (unauthState true true) "x" runThenSucceedNets 5 10 20
      = ⟨.done false, 1, [10]⟩ ∧
    ¬ (wait_for_execution (unauthState true true) "x" runThenSucceedNets 5 10 20).outcome
      = .done true := by
  refine ⟨rfl, ?_⟩
  intro h
  exact absurd ((rfl :
    (wait_for_execution (unauthState true true) "x" runThenSucceedNets 5 10 20).outcome
      = .done false).symm.trans h) (by decide)

/-- C4 (amended): with timeout=5, interval=10 and statuses `"running"` then
`"succeeded"`, the call returns false after exactly one status query and
one clamped 10-second wait, for every positive fuel: the timeout comparison
at the top of the loop ends the loop before the second status query. -/
theorem c4_amended_one_query_false (fuel : Nat) :
    wait_for_execution (unauthState true true) "x" runThenSucceedNets 5 10 (fuel + 1)
      = ⟨.done false, 1, [10]⟩ := by
  show wait_go (unauthState true true) "x" runThenSucceedNets 5
      (clamp_interval 10) 0 0 (fuel + 1) = _
  rw [show clamp_interval 10 = 10 from rfl]
  simp only [wait_go]
  rw [show get_execution_status (unauthState true true) "x" (runThenSucceedNets 0)
      = .ok (.str "running") from rfl]
  simp only [status_class]
  rw [show ((0 : Int) + 10) = 10 from rfl, wait_go_c4_exit]
  rfl

/-- C8: constructing with a non-empty uri but no api key, token, username or
password leaves the stored base URI `"https://localhost"` (discarding the
supplied uri), so every verb call resolves its path against
`"https://localhost"`. -/
theorem c8_uri_discarded (uri : String) (_huri : uri ≠ "")
    (verify upp vak : Bool) (net : NetResult) :
    init uri "" "" "" "" verify upp vak net = .ok (unauthState verify upp) ∧
    (unauthState verify upp).api_uri = "https://localhost" ∧
    ∀ path : String, make_uri (unauthState verify upp) path
      = "https://localhost" ++ (if path = "" then "/" else path) :=
  ⟨rfl, rfl, fun _ => rfl⟩

/-- C8 witness at a concrete uri. -/
theorem c8_uri_discarded_witness :
    init "https://real.example" "" "" "" "" true true true (.ok ST2Response.none)
      = .ok (unauthState true true) :=
  (c8_uri_discarded "https://real.example" (by decide) true true true
    (.ok ST2Response.none)).1

/-- C1: what `get_execution_result` actually does for a non-empty id — on an
HTTP 404 the error is swallowed and the absent value (`None`) is returned;
on any other HTTP failure a `ValueError("execution cannot be found
(ID=abc)")` is raised instead of the transport error propagating.  The
condition `str(err).find(ERROR_INVALID_PATH) == -1` guards the raise, i.e.
the raise fires exactly when the error is NOT a 404 — the opposite of the
claim, of the function's own docstring ("Raises: ValueError when id is
empt[y] or invalid") and of the sibling `get_execution_status`, which
re-raises under the same condition. -/
theorem c1_code_behavior :
    get_execution_result (unauthState true true) "abc" (.httpError msg404)
      = .ok ST2Response.none ∧
    get_execution_result (unauthState true true) "abc" (.httpError msg500)
      = .error (.valueError "execution cannot be found (ID=abc)") :=
  ⟨rfl, rfl⟩

/-- C2: in the reachable state `c2_state1`, the headers assembled for a
`get` request contain BOTH credential headers — the stale `St2-Api-Key`
left in the shared mutable default headers dict by the failed probe, and
the `X-Auth-Token` of the stored bearer token — contradicting the claim
that at most one credential header is ever sent. -/
theorem c2_code_behavior :
    (match c2_state1 with
     | .ok s => (dictHasKey (headers_for_get s) "St2-Api-Key",
                 dictHasKey (headers_for_get s) "X-Auth-Token")
     | .error _ => (false, false)) = (true, true) := rfl

/-- C3 counterexample: the state reached by a validated-key construction
followed by a successful `login` has BOTH the API key and the bearer token
set (truthy), refuting the at-most-one invariant. -/
theorem c3_counterexample :
    (match c3_state1 with
     | .ok s => (isTruthy s.api_key, isTruthy s.auth_token)
     | .error _ => (false, false)) = (true, true) := rfl

/-- On this value type `_check_response` is the identity (every constructor
is an allowed shape, `None` maps to `None`). -/
theorem check_response_eq (b : ST2Response) : check_response b = b := by
  cases b <;> rfl

/-- `auth` when the probe is rejected: the freshly stored key is cleared
again, but the probe's header assembly has already written the key into the
shared default headers dict; nothing else changes. -/
theorem auth_httpError_eq (s : ClientState) (uri k m : String) (hk : k ≠ "")
    (hfull : resolve_uri uri s.api_uri ++ s.path_prefix ≠ "") :
    auth s uri k (.httpError m) = .ok { s with
      api_key := ST2Response.none,
      default_headers :=
        set_headers (ST2Response.str k) s.auth_token s.default_headers } := by
  unfold auth api_get_state
  rw [if_neg hk, if_neg hfull]

/-- `auth` when the probe succeeds: key stored, uri resolved, authenticated
set; the probe's header assembly updated the shared default headers dict. -/
theorem auth_ok_eq (s : ClientState) (uri k : String) (body : ST2Response)
    (hk : k ≠ "") (hfull : resolve_uri uri s.api_uri ++ s.path_prefix ≠ "") :
    auth s uri k (.ok body) = .ok { s with
      authenticated := true,
      api_uri := resolve_uri uri s.api_uri,
      api_key := ST2Response.str k,
      default_headers :=
        set_headers (ST2Response.str k) s.auth_token s.default_headers } := by
  unfold auth api_get_state
  rw [if_neg hk, if_neg hfull]

/-- `auth` raises `ValueError` on an empty key, before any mutation. -/
theorem auth_empty_key_eq (s : ClientState) (uri k : String)
    (probe : NetResult) (hk : k = "") :
    auth s uri k probe
      = .error (.valueError "'api_key' argument must be supplied") := by
  unfold auth
  rw [if_pos hk]

/-- `auth` when the assembled probe uri is empty (unreachable from `init`,
whose path prefixes are non-empty): `_api_get`'s `ValueError` propagates. -/
theorem auth_empty_uri_eq (s : ClientState) (uri k : String)
    (probe : NetResult) (hk : k ≠ "")
    (hfull : resolve_uri uri s.api_uri ++ s.path_prefix = "") :
    auth s uri k probe
      = .error (.valueError "'uri' argument must be supplied") := by
  unfold auth api_get_state
  rw [if_neg hk, if_pos hfull]

/-- `login` swallows an HTTP failure: the state is returned unchanged. -/
theorem login_httpError_eq (s : ClientState) (uri un pw m : String)
    (hu : un ≠ "") (hp : pw ≠ "") :
    login s uri un pw (.httpError m) = .ok s := by
  unfold login
  rw [if_neg hu, if_neg hp]

/-- `login` on a decoded dict containing `"token"`: uri and token stored,
authenticated set; the API key is left untouched. -/
theorem login_token_eq (s : ClientState) (uri un pw : String)
    (es : List (String × ST2Response)) (tok : ST2Response)
    (hu : un ≠ "") (hp : pw ≠ "") (hd : dictGet es "token" = some tok) :
    login s uri un pw (.ok (.dict es)) = .ok { s with
      authenticated := true,
      api_uri := resolve_uri uri s.api_uri,
      auth_token := tok } := by
  unfold login
  rw [if_neg hu, if_neg hp]
  simp only [check_response_eq]
  rw [hd]

/-- `login` on a decoded dict without `"token"`: unchanged state. -/
theorem login_no_token_eq (s : ClientState) (uri un pw : String)
    (es : List (String × ST2Response))
    (hu : un ≠ "") (hp : pw ≠ "") (hd : dictGet es "token" = Option.none) :
    login s uri un pw (.ok (.dict es)) = .ok s := by
  unfold login
  rw [if_neg hu, if_neg hp]
  simp only [check_response_eq]
  rw [hd]

/-- `login` on a decoded non-dict body: unchanged state. -/
theorem login_non_dict_eq (s : ClientState) (uri un pw : String)
    (body : ST2Response) (hu : un ≠ "") (hp : pw ≠ "")
    (hnd : ∀ es, body ≠ ST2Response.dict es) :
    login s uri un pw (.ok body) = .ok s := by
  unfold login
  rw [if_neg hu, if_neg hp]
  cases body with
  | dict es => exact absurd rfl (hnd es)
  | list xs => rfl
  | bool b => rfl
  | int n => rfl
  | str t => rfl
  | none => rfl

/-- `login` raises `ValueError` when the username is empty. -/
theorem login_empty_user_eq (s : ClientState) (uri un pw : String)
    (net : NetResult) (hu : un = "") :
    login s uri un pw net
      = .error (.valueError "'username' argument must be supplied") := by
  unfold login
  rw [if_pos hu]

/-- `login` raises `ValueError` when the password is empty. -/
theorem login_empty_pw_eq (s : ClientState) (uri un pw : String)
    (net : NetResult) (hu : un ≠ "") (hp : pw = "") :
    login s uri un pw net
      = .error (.valueError "'password' argument must be supplied") := by
  unfold login
  rw [if_neg hu, if_pos hp]

/-- Every normal return of `login` keeps the stored API key, the verify
flag, the path prefix and the shared default headers, and never lowers the
authenticated flag. -/
theorem login_ok_fields {s s' : ClientState} {uri un pw : String}
    {net : NetResult} (h : login s uri un pw net = .ok s') :
    s'.api_key = s.api_key ∧ s'.verify = s.verify ∧
    s'.path_prefix = s.path_prefix ∧
    s'.default_headers = s.default_headers ∧
    (s.authenticated = true → s'.authenticated = true) := by
  by_cases hu : un = ""
  · rw [login_empty_user_eq s uri un pw net hu] at h
    cases h
  by_cases hp : pw = ""
  · rw [login_empty_pw_eq s uri un pw net hu hp] at h
    cases h
  cases net with
  | httpError m =>
    rw [login_httpError_eq s uri un pw m hu hp] at h
    cases h
    exact ⟨rfl, rfl, rfl, rfl, fun a => a⟩
  | ok body =>
    cases body with
    | dict es =>
      rcases hd : dictGet es "token" with _ | tok
      · rw [login_no_token_eq s uri un pw es hu hp hd] at h
        cases h
        exact ⟨rfl, rfl, rfl, rfl, fun a => a⟩
      · rw [login_token_eq s uri un pw es tok hu hp hd] at h
        cases h
        exact ⟨rfl, rfl, rfl, rfl, fun _ => rfl⟩
    | list xs =>
      rw [login_non_dict_eq s uri un pw _ hu hp (fun _ h => by cases h)] at h
      cases h
      exact ⟨rfl, rfl, rfl, rfl, fun a => a⟩
    | bool b =>
      rw [login_non_dict_eq s uri un pw _ hu hp (fun _ h => by cases h)] at h
      cases h
      exact ⟨rfl, rfl, rfl, rfl, fun a => a⟩
    | int n =>
      rw [login_non_dict_eq s uri un pw _ hu hp (fun _ h => by cases h)] at h
      cases h
      exact ⟨rfl, rfl, rfl, rfl, fun a => a⟩
    | str t =>
      rw [login_non_dict_eq s uri un pw _ hu hp (fun _ h => by cases h)] at h
      cases h
      exact ⟨rfl, rfl, rfl, rfl, fun a => a⟩
    | none =>
      rw [login_non_dict_eq s uri un pw _ hu hp (fun _ h => by cases h)] at h
      cases h
      exact ⟨rfl, rfl, rfl, rfl, fun a => a⟩

/-- Every normal return of `auth` keeps the stored bearer token, the verify
flag and the path prefix, and never lowers the authenticated flag. -/
theorem auth_ok_fields {s s' : ClientState} {uri k : String}
    {probe : NetResult} (h : auth s uri k probe = .ok s') :
    s'.auth_token = s.auth_token ∧ s'.verify = s.verify ∧
    s'.path_prefix = s.path_prefix ∧
    (s.authenticated = true → s'.authenticated = true) := by
  by_cases hk : k = ""
  · rw [auth_empty_key_eq s uri k probe hk] at h
    cases h
  by_cases hfull : resolve_uri uri s.api_uri ++ s.path_prefix = ""
  · rw [auth_empty_uri_eq s uri k probe hk hfull] at h
    cases h
  cases probe with
  | httpError m =>
    rw [auth_httpError_eq s uri k m hk hfull] at h
    cases h
    exact ⟨rfl, rfl, rfl, fun a => a⟩
  | ok body =>
    rw [auth_ok_eq s uri k body hk hfull] at h
    cases h
    exact ⟨rfl, rfl, rfl, fun _ => rfl⟩

/-- C3 (amended): construction itself establishes at most one credential;
but `login` stores the bearer token without clearing a stored API key and
`auth` stores the API key without clearing a stored bearer token, so both
can be set after mixing them (see the counterexample); header construction
resolves the conflict by preferring the API key. -/
theorem c3_amended_credential_discipline :
    (∀ (uri api_key auth_token username password : String)
       (verify upp vak : Bool) (net : NetResult) (s : ClientState),
       init uri api_key auth_token username password verify upp vak net = .ok s →
       (isTruthy s.api_key && isTruthy s.auth_token) = false) ∧
    (∀ (s : ClientState) (uri un pw : String) (net : NetResult)
       (s' : ClientState),
       login s uri un pw net = .ok s' → s'.api_key = s.api_key) ∧
    (∀ (s : ClientState) (uri k : String) (probe : NetResult)
       (s' : ClientState),
       auth s uri k probe = .ok s' → s'.auth_token = s.auth_token) ∧
    (∀ (key tok : ST2Response) (hs : Headers), isTruthy key = true →
       set_headers key tok hs = set_headers key ST2Response.none hs) := by
  refine ⟨?_, ?_, ?_, ?_⟩
  · intro uri api_key auth_token username password verify upp vak net s h
    unfold init at h
    split at h
    · cases h
      simp [isTruthy, unauthState]
    · split at h
      · cases h
        simp [isTruthy, unauthState]
      · split at h
        · have ha := auth_ok_fields h
          rw [ha.1]
          simp [isTruthy, unauthState]
        · split at h
          · have hl := login_ok_fields h
            rw [hl.1]
            simp [isTruthy, unauthState]
          · cases h
            simp [isTruthy, unauthState]
  · intro s uri un pw net s' h
    exact (login_ok_fields h).1
  · intro s uri k probe s' h
    exact (auth_ok_fields h).1
  · intro key tok hs hk
    simp [set_headers, hk]

/-- C3 amended witness: a concrete successful `login` from a key-holding
state keeps the API key, and header assembly with a truthy key ignores the
token. -/
theorem c3_amended_witness :
    ({ verify := true, authenticated := true, path_prefix := "/api/v1",
       api_uri := "https://st2.example", api_key := ST2Response.str "K1",
       auth_token := ST2Response.str "T",
       default_headers := [] } : ClientState).api_key
      = authedState.api_key ∧
    set_headers (ST2Response.str "K") (ST2Response.str "T") []
      = set_headers (ST2Response.str "K") ST2Response.none [] :=
  ⟨c3_amended_credential_discipline.2.1 authedState "" "u" "p"
      (.ok (.dict [("token", ST2Response.str "T")])) _ rfl,
   c3_amended_credential_discipline.2.2.2 (ST2Response.str "K")
      (ST2Response.str "T") [] rfl⟩

/-- C9: the authenticated flag is monotone — no sequence of method calls
ever takes it from true back to false; a failed `auth` (probe rejected)
clears the stored API key but leaves the flag as it was; a failed `login`
(HTTP error) leaves the whole state unchanged. -/
theorem c9_authenticated_monotone :
    (∀ (s s' : ClientState), Relation.ReflTransGen ClientStep s s' →
       s.authenticated = true → s'.authenticated = true) ∧
    (∀ (s : ClientState) (uri k m : String) (s' : ClientState),
       auth s uri k (.httpError m) = .ok s' →
       s'.api_key = ST2Response.none ∧
       s'.authenticated = s.authenticated) ∧
    (∀ (s : ClientState) (uri un pw m : String) (s' : ClientState),
       login s uri un pw (.httpError m) = .ok s' → s' = s) := by
  have step_mono : ∀ {a b : ClientState}, ClientStep a b →
      a.authenticated = true → b.authenticated = true := by
    intro a b hab ha
    cases hab with
    | login_call _ _ _ _ _ h => exact (login_ok_fields h).2.2.2.2 ha
    | auth_call _ _ _ _ h => exact (auth_ok_fields h).2.2.2 ha
    | header_mutation => exact ha
  refine ⟨?_, ?_, ?_⟩
  · intro s s' h
    induction h with
    | refl => exact fun a => a
    | tail _ hstep ih => exact fun ha => step_mono hstep (ih ha)
  · intro s uri k m s' h
    by_cases hk : k = ""
    · rw [auth_empty_key_eq s uri k _ hk] at h
      cases h
    by_cases hfull : resolve_uri uri s.api_uri ++ s.path_prefix = ""
    · rw [auth_empty_uri_eq s uri k _ hk hfull] at h
      cases h
    rw [auth_httpError_eq s uri k m hk hfull] at h
    cases h
    exact ⟨rfl, rfl⟩
  · intro s uri un pw m s' h
    by_cases hu : un = ""
    · rw [login_empty_user_eq s uri un pw _ hu] at h
      cases h
    by_cases hp : pw = ""
    · rw [login_empty_pw_eq s uri un pw _ hu hp] at h
      cases h
    rw [login_httpError_eq s uri un pw m hu hp] at h
    cases h
    rfl

/-- C9 witness: a concrete rejected probe from an authenticated state —
the key is cleared, the flag stays true. -/
theorem c9_witness :
    ({ verify := true, authenticated := true, path_prefix := "/api/v1",
       api_uri := "https://st2.example", api_key := ST2Response.none,
       auth_token := ST2Response.none,
       default_headers :=
         set_headers (ST2Response.str "K2") ST2Response.none [] } :
      ClientState).api_key = ST2Response.none ∧
    ({ verify := true, authenticated := true, path_prefix := "/api/v1",
       api_uri := "https://st2.example", api_key := ST2Response.none,
       auth_token := ST2Response.none,
       default_headers :=
         set_headers (ST2Response.str "K2") ST2Response.none [] } :
      ClientState).authenticated = authedState.authenticated :=
  c9_authenticated_monotone.2.1 authedState "" "K2"
    "503 Server Error: Service Unavailable for url: https://st2.example/api/v1"
    _ rfl

/-- `_make_uri` never returns the empty string: the path component is
`"/"` when the path is empty and the non-empty path otherwise. -/
theorem make_uri_ne (s : ClientState) (path : String) : make_uri s path ≠ "" := by
  unfold make_uri
  intro h
  have hd := congrArg String.data h
  rw [String.data_append] at hd
  rw [show ("" : String).data = [] from rfl] at hd
  by_cases hp : path = ""
  · rw [if_pos hp] at hd
    rw [show ("/" : String).data = [Char.ofNat 47] from rfl] at hd
    simp at hd
  · rw [if_neg hp] at hd
    have h2 := List.append_eq_nil.mp hd
    refine hp (String.ext ?_)
    rw [h2.2]

/-- C5 counterexample: on an unserialisable body, `put` does not fail with
`ValueError("invalid body data")` — the raw `TypeError` from `json.dumps`
propagates instead, because `_api_put` calls `json.dumps` without the
`try/except` wrapper `_api_post` has. -/
theorem c5_counterexample :
    (put (unauthState true true) "/api/v1/rules/r1" badBody
        (.ok ST2Response.none)).result
      = .error (.typeError "Object of type set is not JSON serializable") ∧
    ¬ (put (unauthState true true) "/api/v1/rules/r1" badBody
        (.ok ST2Response.none)).result
      = .error (.valueError "invalid body data") := by
  refine ⟨rfl, ?_⟩
  intro h
  rw [show (put (unauthState true true) "/api/v1/rules/r1" badBody
        (.ok ST2Response.none)).result
      = .error (.typeError "Object of type set is not JSON serializable")
    from rfl] at h
  exact absurd h (by simp)

/-- C5 (amended): an unserialisable body makes `post` fail with
`ValueError("invalid body data")` before any request is sent, while `put`
propagates the underlying encoding error unchanged — also before any
request is sent. -/
theorem c5_amended_encode_failure (s : ClientState) (path : String)
    (b : PyObj) (net : NetResult) (err : PyError)
    (hb : json_dumps b = .error err) :
    (post s path b net).requested = false ∧
    (post s path b net).result = .error (.valueError "invalid body data") ∧
    (put s path b net).requested = false ∧
    (put s path b net).result = .error err := by
  unfold post put api_post api_put
  rw [if_neg (make_uri_ne s path), if_neg (make_uri_ne s path), hb]
  exact ⟨rfl, rfl, rfl, rfl⟩

/-- C5 amended witness at a concrete unserialisable body. -/
theorem c5_amended_witness :
    (post (unauthState true true) "/x" badBody (.ok ST2Response.none)).requested
      = false ∧
    (post (unauthState true true) "/x" badBody (.ok ST2Response.none)).result
      = .error (.valueError "invalid body data") ∧
    (put (unauthState true true) "/x" badBody (.ok ST2Response.none)).requested
      = false ∧
    (put (unauthState true true) "/x" badBody (.ok ST2Response.none)).result
      = .error (.typeError "Object of type set is not JSON serializable") :=
  c5_amended_encode_failure (unauthState true true) "/x" badBody
    (.ok ST2Response.none) _ rfl

/-- `_api_get` on a non-empty uri with an HTTP failure: the shared default
headers dict is updated (it was assembled before the request), and the
`HTTPError` is raised. -/
theorem api_get_state_httpError_eq (s : ClientState) (uri m : String)
    (hu : uri ≠ "") :
    api_get_state s uri (.httpError m)
      = ({ s with default_headers := headers_for_get s },
         .error (.httpError m)) := by
  unfold api_get_state headers_for_get
  rw [if_neg hu]

/-- `_api_get` on a non-empty uri with a 2xx response: headers updated,
decoded body returned. -/
theorem api_get_state_ok_eq (s : ClientState) (uri : String)
    (body : ST2Response) (hu : uri ≠ "") :
    api_get_state s uri (.ok body)
      = ({ s with default_headers := headers_for_get s },
         .ok (check_response body)) := by
  unfold api_get_state headers_for_get
  rw [if_neg hu]

/-- C6: `get_execution_status` raises `ValueError` exactly when id is
empty; for a non-empty id a 404 yields the sentinel `"missing"` without an
error, any other HTTP failure propagates, a decoded dict containing
`"status"` yields that value, and any other response shape yields
`"missing"`. -/
theorem c6_get_execution_status_spec :
    (∀ (s : ClientState) (net : NetResult),
       get_execution_status s "" net
         = .error (.valueError "'id' argument must be specified")) ∧
    (∀ (s : ClientState) (id m : String), id ≠ "" →
       strContains m ERROR_INVALID_PATH = true →
       get_execution_status s id (.httpError m) = .ok (.str "missing")) ∧
    (∀ (s : ClientState) (id m : String), id ≠ "" →
       strContains m ERROR_INVALID_PATH = false →
       get_execution_status s id (.httpError m) = .error (.httpError m)) ∧
    (∀ (s : ClientState) (id : String) (es : List (String × ST2Response))
       (v : ST2Response), id ≠ "" → dictGet es "status" = some v →
       get_execution_status s id (.ok (.dict es)) = .ok v) ∧
    (∀ (s : ClientState) (id : String) (es : List (String × ST2Response)),
       id ≠ "" → dictGet es "status" = Option.none →
       get_execution_status s id (.ok (.dict es)) = .ok (.str "missing")) ∧
    (∀ (s : ClientState) (id : String) (body : ST2Response), id ≠ "" →
       (∀ es, body ≠ ST2Response.dict es) →
       get_execution_status s id (.ok body) = .ok (.str "missing")) := by
  refine ⟨?_, ?_, ?_, ?_, ?_, ?_⟩
  · intro s net
    unfold get_execution_status
    rw [if_pos rfl]
  · intro s id m hid hm
    unfold get_execution_status
    rw [if_neg hid, api_get_state_httpError_eq s _ m (make_uri_ne s _)]
    simp [hm]
  · intro s id m hid hm
    unfold get_execution_status
    rw [if_neg hid, api_get_state_httpError_eq s _ m (make_uri_ne s _)]
    simp [hm]
  · intro s id es v hid hd
    unfold get_execution_status
    rw [if_neg hid, api_get_state_ok_eq s _ _ (make_uri_ne s _)]
    simp [check_response_eq, hd]
  · intro s id es hid hd
    unfold get_execution_status
    rw [if_neg hid, api_get_state_ok_eq s _ _ (make_uri_ne s _)]
    simp [check_response_eq, hd]
  · intro s id body hid hnd
    unfold get_execution_status
    rw [if_neg hid, api_get_state_ok_eq s _ _ (make_uri_ne s _)]
    cases body with
    | dict es => exact absurd rfl (hnd es)
    | list xs => rfl
    | bool b => rfl
    | int n => rfl
    | str t => rfl
    | none => rfl

/-- C6 witness: concrete instances — a 404 yields `"missing"`, a 500
propagates, a dict with a status yields it. -/
theorem c6_witness :
    get_execution_status (unauthState true true) "w1" (.httpError msg404)
      = .ok (.str "missing") ∧
    get_execution_status (unauthState true true) "w1" (.httpError msg500)
      = .error (.httpError msg500) ∧
    get_execution_status (unauthState true true) "w1"
        (.ok (.dict [("status", .str "running")]))
      = .ok (.str "running") :=
  ⟨c6_get_execution_status_spec.2.1 (unauthState true true) "w1" msg404
      (by decide) rfl,
   c6_get_execution_status_spec.2.2.1 (unauthState true true) "w1" msg500
      (by decide) rfl,
   c6_get_execution_status_spec.2.2.2.1 (unauthState true true) "w1"
      [("status", .str "running")] (.str "running") (by decide) rfl⟩

/-- Every sleep the polling loop performs has duration exactly `i`, the
interval it was given (which `wait_for_execution` clamps before the
loop). -/
theorem wait_go_sleeps_eq (s : ClientState) (id : String)
    (nets : Nat → NetResult) (timeout i : Int) :
    ∀ (fuel k : Nat) (elapsed : Int) (x : Int),
      x ∈ (wait_go s id nets timeout i k elapsed fuel).sleeps → x = i := by
  intro fuel
  induction fuel with
  | zero =>
    intro k elapsed x hx
    unfold wait_go at hx
    split at hx <;> simp at hx
  | succ f ih =>
    intro k elapsed x hx
    unfold wait_go at hx
    split at hx
    · rcases hg : get_execution_status s id (nets k) with e | v
      · simp only [hg] at hx
        simp at hx
      · simp only [hg] at hx
        rcases hc : status_class v with _ | b
        · simp only [hc] at hx
          simp at hx
          rcases hx with rfl | hx
          · rfl
          · exact ih (k + 1) (elapsed + i) x hx
        · simp only [hc] at hx
          simp at hx
    · simp at hx

/-- C7: the interval is clamped once before the loop — interval 0 behaves
exactly like interval 1, interval 1000 exactly like interval 300, and every
sleep (and hence every elapsed-time accumulation) uses the clamped
interval. -/
theorem c7_interval_clamping :
    (∀ (s : ClientState) (id : String) (nets : Nat → NetResult)
       (timeout : Int) (fuel : Nat),
       wait_for_execution s id nets timeout 0 fuel
         = wait_for_execution s id nets timeout 1 fuel) ∧
    (∀ (s : ClientState) (id : String) (nets : Nat → NetResult)
       (timeout : Int) (fuel : Nat),
       wait_for_execution s id nets timeout 1000 fuel
         = wait_for_execution s id nets timeout 300 fuel) ∧
    (∀ (s : ClientState) (id : String) (nets : Nat → NetResult)
       (timeout interval : Int) (fuel : Nat) (x : Int),
       x ∈ (wait_for_execution s id nets timeout interval fuel).sleeps →
       x = clamp_interval interval) := by
  refine ⟨fun s id nets timeout fuel => rfl, fun s id nets timeout fuel => rfl, ?_⟩
  intro s id nets timeout interval fuel x hx
  unfold wait_for_execution at hx
  split at hx
  · simp at hx
  · exact wait_go_sleeps_eq s id nets timeout (clamp_interval interval)
      fuel 0 0 x hx

/-- C7 witness: in a concrete run whose single sleep is 10 seconds, that
sleep equals the clamped interval. -/
theorem c7_witness : (10 : Int) = clamp_interval 10 :=
  c7_interval_clamping.2.2 (unauthState true true) "w2" runningNets 5 10 2 10
    (by
      rw [show wait_for_execution (unauthState true true) "w2" runningNets 5 10 2
          = ⟨.done false, 1, [10]⟩ from rfl]
      simp)

/-- With a positive timeout and enough fuel (one unit per remaining second
suffices, as each iteration advances `_elapsed_time` by at least 1), the
polling loop reaches a `return` when no status query raises. -/
theorem wait_go_no_error_done (s : ClientState) (id : String)
    (nets : Nat → NetResult) (timeout i : Int) (hi : 1 ≤ i) (ht : 0 < timeout)
    (hok : ∀ k, ∃ v, get_execution_status s id (nets k) = .ok v) :
    ∀ (fuel k : Nat) (elapsed : Int), (timeout - elapsed).toNat ≤ fuel →
      ∃ b, (wait_go s id nets timeout i k elapsed fuel).outcome
        = WaitOutcome.done b := by
  intro fuel
  induction fuel with
  | zero =>
    intro k elapsed hf
    have hc : ¬ (timeout = 0 ∨ elapsed < timeout) := by omega
    unfold wait_go
    rw [if_neg hc]
    exact ⟨false, rfl⟩
  | succ f ih =>
    intro k elapsed hf
    unfold wait_go
    by_cases hc : timeout = 0 ∨ elapsed < timeout
    · rw [if_pos hc]
      have he : elapsed < timeout := hc.resolve_left (by omega)
      obtain ⟨v, hv⟩ := hok k
      simp only [hv]
      rcases hcv : status_class v with _ | b
      · simp only [hcv]
        simpa using ih (k + 1) (elapsed + i) (by omega)
      · simp only [hcv]
        exact ⟨b, rfl⟩
    · rw [if_neg hc]
      exact ⟨false, rfl⟩

/-- Query-count bound for the polling loop: whatever the oracle answers,
`queries * i` stays below `(timeout - elapsed) + i`, i.e. the loop performs
at most `ceil((timeout - elapsed) / i)` status queries. -/
theorem wait_go_query_bound (s : ClientState) (id : String)
    (nets : Nat → NetResult) (timeout i : Int) (hi : 1 ≤ i) (ht : 0 < timeout) :
    ∀ (fuel k : Nat) (elapsed : Int),
      ((wait_go s id nets timeout i k elapsed fuel).queries : Int) * i
        < max (timeout - elapsed) 0 + i := by
  intro fuel
  induction fuel with
  | zero =>
    intro k elapsed
    unfold wait_go
    split <;>
      simp <;>
      linarith [le_max_right (timeout - elapsed) (0 : Int), hi]
  | succ f ih =>
    intro k elapsed
    unfold wait_go
    by_cases hc : timeout = 0 ∨ elapsed < timeout
    · rw [if_pos hc]
      have he : elapsed < timeout := hc.resolve_left (by omega)
      have hmax : max (timeout - elapsed) 0 = timeout - elapsed :=
        max_eq_left (by omega)
      rcases hg : get_execution_status s id (nets k) with e | v
      · simp only [hg]
        rw [hmax]
        simp
        linarith
      · simp only [hg]
        rcases hcv : status_class v with _ | b
        · simp only [hcv]
          have ihr := ih (k + 1) (elapsed + i)
          rw [hmax]
          push_cast
          rcases le_or_lt i (timeout - elapsed) with hTi | hTi
          · have hm2 : max (timeout - (elapsed + i)) 0 = timeout - (elapsed + i) :=
              max_eq_left (by omega)
            rw [hm2] at ihr
            nlinarith [ihr]
          · have hm2 : max (timeout - (elapsed + i)) 0 = 0 :=
              max_eq_right (by omega)
            rw [hm2] at ihr
            have hq0 :
                (wait_go s id nets timeout i (k + 1) (elapsed + i) f).queries
                  = 0 := by
              by_contra hne
              have h1 : (1 : Int) ≤
                  ((wait_go s id nets timeout i (k + 1) (elapsed + i) f).queries
                    : Int) := by
                exact_mod_cast Nat.one_le_iff_ne_zero.mpr hne
              nlinarith [ihr]
            rw [hq0]
            simp
            linarith
        · simp only [hcv]
          rw [hmax]
          simp
          linarith
    · rw [if_neg hc]
      simp
      linarith [le_max_right (timeout - elapsed) (0 : Int), hi]

/-- C10: for a non-empty id, any interval and any positive timeout, the
polling loop terminates with a boolean (given that no status query raises)
after at most `ceil(timeout / clamped-interval)` status queries. -/
theorem c10_wait_terminates (s : ClientState) (id : String)
    (nets : Nat → NetResult) (timeout interval : Int) (fuel : Nat)
    (hid : id ≠ "") (ht : 0 < timeout) (hfuel : timeout.toNat ≤ fuel)
    (hok : ∀ k, ∃ v, get_execution_status s id (nets k) = .ok v) :
    (∃ b, (wait_for_execution s id nets timeout interval fuel).outcome
        = WaitOutcome.done b) ∧
    (wait_for_execution s id nets timeout interval fuel).queries
      ≤ (timeout.toNat + (clamp_interval interval).toNat - 1)
          / (clamp_interval interval).toNat := by
  have hi : 1 ≤ clamp_interval interval := by
    simp only [clamp_interval]
    split <;> split <;> omega
  unfold wait_for_execution
  rw [if_neg hid]
  constructor
  · exact wait_go_no_error_done s id nets timeout _ hi ht hok fuel 0 0 (by omega)
  · have hb := wait_go_query_bound s id nets timeout _ hi ht fuel 0 0
    rw [show max (timeout - 0) 0 = timeout from by
      rw [sub_zero]; exact max_eq_left (le_of_lt ht)] at hb
    have hIpos : 0 < (clamp_interval interval).toNat := by omega
    rw [Nat.le_div_iff_mul_le hIpos]
    have h2 : (wait_go s id nets timeout (clamp_interval interval) 0 0 fuel).queries
        * (clamp_interval interval).toNat
        < timeout.toNat + (clamp_interval interval).toNat := by
      have hcast : (((wait_go s id nets timeout (clamp_interval interval) 0 0
            fuel).queries * (clamp_interval interval).toNat : Nat) : Int)
          < ((timeout.toNat + (clamp_interval interval).toNat : Nat) : Int) := by
        push_cast
        rw [Int.toNat_of_nonneg (by omega : (0 : Int) ≤ clamp_interval interval),
          Int.toNat_of_nonneg (le_of_lt ht)]
        exact hb
      exact_mod_cast hcast
    exact Nat.le_pred_of_lt h2

/-- C10 witness: a concrete run — timeout 7, interval 3, statuses always
`"running"` — returns a boolean within `ceil(7/3) = 3` queries. -/
theorem c10_witness :
    (wait_for_execution (unauthState true true) "w3" runningNets 7 3 7).queries
      ≤ ((7 : Int).toNat + (clamp_interval 3).toNat - 1)
          / (clamp_interval 3).toNat :=
  (c10_wait_terminates (unauthState true true) "w3" runningNets 7 3 7
    (by decide) (by decide) (by decide)
    (fun k => ⟨.str "running", rfl⟩)).2
